import Mathlib

/-!
Verification of the StreamCore session-token lifecycle.

The controller logic is translated from src/src/controllers/user.controller.js.
The user-model helper methods (token signing, password hashing) and the
jsonwebtoken verification primitive are not among the provided sources; their
definitions below are modelled from the specification (sections 4.1, 4.2, 6)
and are marked as such in their doc comments.

State is passed explicitly: every operation returns the outcome together with
the resulting record store, and an error outcome is paired with the store as it
was when the exception was raised (no write precedes a throw on those paths).
-/

deriving instance DecidableEq for Except

/-- Claims carried inside a signed token. Modelled from the spec: the token
methods live in the user model file, which is not among the provided sources;
per the spec each token "carries user identifier as claim" (the source reads
this claim back as the field named underscore-id). -/
structure Claims where
  uid : Nat
deriving DecidableEq, Repr

/-- A signed token. Modelled from the spec (section 4.2 Token Issuer): signing
is deterministic given identical claims, secret and clock, and embeds an
expiry-timestamp claim, so a token is fully described by its claims, the
signing secret, the issue time and the expiry time. Textual equality of token
strings in the source corresponds to structural equality here. -/
structure Token where
  claims : Claims
  secret : String
  iat : Nat
  exp : Nat
deriving DecidableEq, Repr

/-- Token signing. Modelled from the spec: given a user identifier, the issuer
produces a signed token with its own secret and expiry duration. -/
def sign (c : Claims) (secret : String) (ttl : Nat) (now : Nat) : Token :=
  { claims := c, secret := secret, iat := now, exp := now + ttl }

/-- The two failure kinds of token verification, per the spec (section 4.2):
TokenInvalid when the signature does not match, TokenExpired when the expiry
timestamp has passed. -/
inductive VerifyError where
  | tokenInvalid
  | tokenExpired
deriving DecidableEq, Repr

/-- The message property of the corresponding jsonwebtoken error object, as
surfaced by the catch clause of refreshAccessToken. -/
def VerifyError.message : VerifyError → String
  | .tokenInvalid => "invalid signature"
  | .tokenExpired => "jwt expired"

/-- Token verification. Modelled from the spec (sections 4.2 and 6): fails
with TokenInvalid when the signature does not match, with TokenExpired when
the expiry timestamp has passed, otherwise returns the claims. The signature
is checked before the expiry, as the verification primitive does. -/
def jwtVerify (t : Token) (secret : String) (now : Nat) : Except VerifyError Claims :=
  if t.secret ≠ secret then .error .tokenInvalid
  else if t.exp ≤ now then .error .tokenExpired
  else .ok t.claims

/-- Password hashing. Modelled from the spec (section 4.1): a one-way hash;
the password attribute never holds plaintext after creation or update. An
injective tagging function stands in for the hash. -/
def hashPassword (plain : String) : String :=
  "hash:" ++ plain

/-- The isPasswordCorrect schema method. Modelled from the spec (section 4.1
Credential Verifier): given a plaintext password and a stored hash, returns a
boolean match result; mismatch is a normal false outcome, not a failure. -/
def isPasswordCorrect (plain : String) (storedHash : String) : Bool :=
  hashPassword plain == storedHash

/-- A user record, as read and written by the controllers: the fields the
controllers touch, with the refresh-token Session Store field nullable. -/
structure UserDoc where
  fullName : String
  email : String
  username : String
  password : String
  avatar : String
  coverImage : String
  refreshToken : Option Token
deriving DecidableEq, Repr

/-- The user record store, keyed by user identifier. -/
abbrev DB := List (Nat × UserDoc)

/-- User.findById: look a record up by its identifier. -/
def findById (db : DB) (id : Nat) : Option UserDoc :=
  (db.find? (fun p => p.1 == id)).map (fun p => p.2)

/-- user.save / findByIdAndUpdate: replace the record stored under the given
identifier. -/
def saveUser (db : DB) (id : Nat) (u : UserDoc) : DB :=
  db.map (fun p => if p.1 == id then (id, u) else p)

/-- User.findOne with an or-filter on email and username; an absent field is
stripped from the filter and matches nothing. Returns the key and the record. -/
def findOneByEmailOrUsername (db : DB) (email? : Option String)
    (username? : Option String) : Option (Nat × UserDoc) :=
  db.find? (fun p =>
    (match email? with | some e => p.2.email == e | none => false) ||
    (match username? with | some n => p.2.username == n | none => false))

/-- JavaScript truthiness of an optional string: undefined and the empty
string are falsy. -/
def truthy : Option String → Bool
  | none => false
  | some s => s ≠ ""

/-- The ApiError value thrown by the controllers: an HTTP status code and a
message. -/
structure ApiError where
  statusCode : Nat
  message : String
deriving DecidableEq, Repr

/-- The environment of secrets and expiry durations read from process.env. -/
structure Env where
  accessTokenSecret : String
  refreshTokenSecret : String
  accessExpiry : Nat
  refreshExpiry : Nat
deriving DecidableEq, Repr

/-- A field value of a serialized user document: either a plain string field
or the nullable refresh-token field. -/
inductive FieldValue where
  | vStr : String → FieldValue
  | vTok : Option Token → FieldValue
deriving DecidableEq, Repr

/-- The serialized field list of a user record, used to model the select
projection applied before a record is returned to the client. -/
def UserDoc.toFields (u : UserDoc) : List (String × FieldValue) :=
  [("fullName", .vStr u.fullName), ("email", .vStr u.email),
   ("username", .vStr u.username), ("password", .vStr u.password),
   ("avatar", .vStr u.avatar), ("coverImage", .vStr u.coverImage),
   ("refreshToken", .vTok u.refreshToken)]

/-- The select projection with excluded field names, as in
select("-password -refreshToken"). -/
def selectWithout (fields : List (String × FieldValue)) (excluded : List String) :
    List (String × FieldValue) :=
  fields.filter (fun p => !excluded.contains p.1)

/-- Did the operation succeed? -/
def isSuccess {α : Type} : Except ApiError α → Bool
  | .ok _ => true
  | .error _ => false

/-- generateAccessAndRefreshTokens, translated from the source. The whole body
sits in a try/catch that converts any failure into ApiError 500: a missing
record (the method call on null throws) and a failed save both surface as that
500. The saveOk flag injects the outcome of the persistent write, which the
source leaves to the record store. -/
def generateAccessAndRefreshTokens (env : Env) (db : DB) (now : Nat)
    (userId : Nat) (saveOk : Bool) : Except ApiError (Token × Token) × DB :=
  match findById db userId with
  | none => (.error ⟨500, "Something went wrong while generating tokens"⟩, db)
  | some user =>
    let accessToken := sign ⟨userId⟩ env.accessTokenSecret env.accessExpiry now
    let refreshToken := sign ⟨userId⟩ env.refreshTokenSecret env.refreshExpiry now
    if saveOk then
      (.ok (accessToken, refreshToken),
        saveUser db userId { user with refreshToken := some refreshToken })
    else
      (.error ⟨500, "Something went wrong while generating tokens"⟩, db)

/-- The request body of loginUser: each field may be absent. -/
structure LoginRequest where
  email : Option String
  username : Option String
  password : Option String
deriving DecidableEq, Repr

/-- The success payload of loginUser: the sanitized user projection and the
token pair. -/
structure LoginResponse where
  user : List (String × FieldValue)
  accessToken : Token
  refreshToken : Token
deriving DecidableEq, Repr

/-- loginUser, translated from the source: validate presence, find the user by
email or username, check the password, generate and persist tokens, and return
the projection obtained with select("-password -refreshToken"). -/
def loginUser (env : Env) (db : DB) (now : Nat) (req : LoginRequest)
    (saveOk : Bool) : Except ApiError LoginResponse × DB :=
  if (!truthy req.email && !truthy req.username) || !truthy req.password then
    (.error ⟨400, "Email/Username and password required"⟩, db)
  else
    match findOneByEmailOrUsername db req.email req.username with
    | none => (.error ⟨404, "User does not exist"⟩, db)
    | some (uid, user) =>
      if !isPasswordCorrect (req.password.getD "") user.password then
        (.error ⟨401, "Invalid credentials"⟩, db)
      else
        match generateAccessAndRefreshTokens env db now uid saveOk with
        | (.error e, db1) => (.error e, db1)
        | (.ok (accessToken, refreshToken), db1) =>
          let loggedInUser :=
            match findById db1 uid with
            | some u2 => selectWithout u2.toFields ["password", "refreshToken"]
            | none => []
          (.ok ⟨loggedInUser, accessToken, refreshToken⟩, db1)

/-- logoutUser, translated from the source: findByIdAndUpdate on the caller
with the update document whose single key, the refresh-token field, holds the
undefined value. The ODM (Mongoose 6 and later, which removed the
omitUndefined option) strips keys holding undefined from update documents, so
the update the store executes is empty and the stored refresh token is left
in place: the operation is a no-op on the record store, diverging from the
stated intent of the source comment (remove refresh token from the record
store). The handler then always answers 200. -/
def logoutUser (db : DB) (callerId : Nat) : Except ApiError Unit × DB :=
  (.ok (), db)

/-- The success payload of refreshAccessToken. -/
structure RefreshResponse where
  accessToken : Token
  refreshToken : Token
deriving DecidableEq, Repr

/-- refreshAccessToken, translated from the source. Everything after the
missing-token guard runs inside a try/catch whose catch rethrows
ApiError 401 with the message of the caught error: the two errors thrown
inside the try (user not found, stored-token mismatch) are rethrown with their
own message, a verification error is rethrown with the message of the
jsonwebtoken error, and the ApiError 500 thrown by
generateAccessAndRefreshTokens is rethrown as a 401 carrying its message. -/
def refreshAccessToken (env : Env) (db : DB) (now : Nat)
    (incomingRefreshToken : Option Token) (saveOk : Bool) :
    Except ApiError RefreshResponse × DB :=
  match incomingRefreshToken with
  | none => (.error ⟨401, "No refresh token found"⟩, db)
  | some tok =>
    match jwtVerify tok env.refreshTokenSecret now with
    | .error e => (.error ⟨401, e.message⟩, db)
    | .ok decoded =>
      match findById db decoded.uid with
      | none => (.error ⟨401, "Invalid refresh token"⟩, db)
      | some user =>
        if some tok ≠ user.refreshToken then
          (.error ⟨401, "Expired or invalid refresh token"⟩, db)
        else
          match generateAccessAndRefreshTokens env db now decoded.uid saveOk with
          | (.error e, db1) => (.error ⟨401, e.message⟩, db1)
          | (.ok (accessToken, refreshToken), db1) =>
            (.ok ⟨accessToken, refreshToken⟩, db1)

/-- changeCurrentPassword, translated from the source: look the caller up,
check the old password, store the new one (re-hashed before persistence by
the pre-save hook, modelled from the spec) and save. A missing caller record
makes the method call on null throw, which the async wrapper surfaces as a
server error. -/
def changeCurrentPassword (db : DB) (callerId : Nat)
    (oldpassword newPassword : String) : Except ApiError Unit × DB :=
  match findById db callerId with
  | none => (.error ⟨500, "Cannot read properties of null"⟩, db)
  | some user =>
    if !isPasswordCorrect oldpassword user.password then
      (.error ⟨400, "Invalid old password."⟩, db)
    else
      (.ok (), saveUser db callerId { user with password := hashPassword newPassword })

/-- The request of registerUser: the four body fields and the two uploaded
file paths, each possibly absent. -/
structure RegisterRequest where
  fullName : Option String
  email : Option String
  username : Option String
  password : Option String
  avatarPath : Option String
  coverImagePath : Option String
deriving DecidableEq, Repr

/-- The trim method of JavaScript strings: remove leading and trailing
whitespace. -/
def jsTrim (s : String) : String :=
  String.mk (((s.data.dropWhile Char.isWhitespace).reverse.dropWhile
    Char.isWhitespace).reverse)

/-- The up-front required-fields validation of registerUser: true exactly when
some field, after the optional-chained trim, is the empty string. An absent
field yields undefined, which is not the empty string. -/
def someFieldEmpty (req : RegisterRequest) : Bool :=
  [req.fullName, req.email, req.username, req.password].any
    (fun f => f.map jsTrim == some "")

/-- The portion of registerUser after the required-fields validation:
duplicate-user lookup, avatar checks and upload, then the database create and
the sanitized projection of the created record. The media service is modelled
per the spec as accepting a local file path and returning a public URL or
failing (the uploadOk flag injects its outcome). An absent username or
password at the create step makes the create throw (the lowercasing method
call on undefined, respectively the hashing of an undefined password), which
the async wrapper surfaces as a server error. -/
def registerAfterValidation (db : DB) (nextId : Nat) (req : RegisterRequest)
    (uploadOk : Bool) : Except ApiError (List (String × FieldValue)) × DB :=
  match findOneByEmailOrUsername db req.email req.username with
  | some _ => (.error ⟨409, "User with email/username already exists"⟩, db)
  | none =>
    match req.avatarPath with
    | none => (.error ⟨400, "Avatar file is required"⟩, db)
    | some path =>
      if !uploadOk then (.error ⟨400, "Avatar upload failed"⟩, db)
      else
        match req.username, req.password with
        | some username, some password =>
          let user : UserDoc :=
            { fullName := req.fullName.getD "", email := req.email.getD "",
              username := username.toLower,
              password := hashPassword password,
              avatar := "cdn/" ++ path,
              coverImage := (req.coverImagePath.map (fun p => "cdn/" ++ p)).getD "",
              refreshToken := none }
          (.ok (selectWithout user.toFields ["password", "refreshToken"]),
            (nextId, user) :: db)
        | _, _ => (.error ⟨500, "TypeError at create"⟩, db)

/-- registerUser, translated from the source: the required-fields validation,
then the post-validation continuation. -/
def registerUser (db : DB) (nextId : Nat) (req : RegisterRequest)
    (uploadOk : Bool) : Except ApiError (List (String × FieldValue)) × DB :=
  if someFieldEmpty req then (.error ⟨400, "All fields are required"⟩, db)
  else registerAfterValidation db nextId req uploadOk

/-- Does a refresh call presenting the given token succeed against the given
store, with the persistent write succeeding? -/
def refreshSucceeds (env : Env) (db : DB) (now : Nat) (t : Token) : Bool :=
  isSuccess (refreshAccessToken env db now (some t) true).1

/-! Concrete sample data used by the witnesses. -/

/-- A refresh token of user 1, signed at time 10 with a 1000-tick expiry. -/
def tokC : Token := sign ⟨1⟩ "refresh-secret" 1000 10

/-- A sample user record holding tokC as its current refresh token. -/
def aliceC : UserDoc :=
  { fullName := "Alice A", email := "a@x.io", username := "alice",
    password := hashPassword "pw", avatar := "cdn/av", coverImage := "",
    refreshToken := some tokC }

/-- A sample environment of secrets and expiries. -/
def envC : Env := ⟨"access-secret", "refresh-secret", 100, 1000⟩

/-- A sample store holding the single user aliceC under key 1. -/
def dbC : DB := [(1, aliceC)]

/-- The refresh token issued at time 50 for user 1. -/
def rotC : Token := sign ⟨1⟩ "refresh-secret" 1000 50

/-- The response of a successful refresh of dbC at time 50. -/
def respC : RefreshResponse := ⟨sign ⟨1⟩ "access-secret" 100 50, rotC⟩

/-- The store after user 1 rotated to rotC. -/
def dbC2 : DB := [(1, { aliceC with refreshToken := some rotC })]

/-- The response of a successful login against dbC at time 50. -/
def respLC : LoginResponse :=
  ⟨selectWithout ({ aliceC with refreshToken := some rotC }).toFields
      ["password", "refreshToken"],
    sign ⟨1⟩ "access-secret" 100 50, rotC⟩

/-- A login request identifying aliceC by username. -/
def reqC : LoginRequest := ⟨none, some "alice", some "pw"⟩

/-- A registration request with an entirely absent fullName field. -/
def reqC10 : RegisterRequest :=
  ⟨none, some "b@x.io", some "bob", some "pw2", some "avatar-path", none⟩

/-! Helper lemmas about the record store and the token primitives. -/

theorem findById_cons (p : Nat × UserDoc) (rest : DB) (id : Nat) :
    findById (p :: rest) id = if p.1 = id then some p.2 else findById rest id := by
  by_cases hp : p.1 = id
  · simp [findById, List.find?_cons_of_pos, hp]
  · have hfind : List.find? (fun q : Nat × UserDoc => q.1 == id) (p :: rest)
        = List.find? (fun q : Nat × UserDoc => q.1 == id) rest :=
      List.find?_cons_of_neg _ (by simp [hp])
    simp only [findById, hfind, if_neg hp]

theorem saveUser_cons (p : Nat × UserDoc) (rest : DB) (id : Nat) (v : UserDoc) :
    saveUser (p :: rest) id v =
      (if p.1 = id then (id, v) else p) :: saveUser rest id v := by
  by_cases hp : p.1 = id <;> simp [saveUser, hp]

theorem findById_saveUser_self {db : DB} {id : Nat} {u : UserDoc} (v : UserDoc)
    (h : findById db id = some u) : findById (saveUser db id v) id = some v := by
  induction db with
  | nil => simp [findById] at h
  | cons p rest ih =>
    rw [findById_cons] at h
    rw [saveUser_cons]
    by_cases hp : p.1 = id
    · rw [if_pos hp, findById_cons]
      simp
    · rw [if_neg hp] at h
      rw [if_neg hp, findById_cons]
      simp only [if_neg hp]
      exact ih h

theorem findById_saveUser_other {db : DB} {id j : Nat} (v : UserDoc)
    (h : j ≠ id) : findById (saveUser db id v) j = findById db j := by
  induction db with
  | nil => simp [findById, saveUser]
  | cons p rest ih =>
    rw [saveUser_cons, findById_cons, findById_cons]
    by_cases hp : p.1 = id
    · rw [if_pos hp]
      have hd : ¬ ((id, v) : Nat × UserDoc).1 = j := fun hc => h (hc ▸ rfl)
      rw [if_neg hd, if_neg (fun hc : p.1 = j => h ((hp ▸ hc) ▸ rfl))]
      exact ih
    · rw [if_neg hp]
      by_cases hj : p.1 = j
      · rw [if_pos hj, if_pos hj]
      · rw [if_neg hj, if_neg hj]
        exact ih

theorem jwtVerify_ok_inv {t : Token} {secret : String} {now : Nat} {c : Claims}
    (h : jwtVerify t secret now = .ok c) :
    t.secret = secret ∧ now < t.exp ∧ c = t.claims := by
  unfold jwtVerify at h
  split_ifs at h with h1 h2
  · simp only [Except.ok.injEq] at h
    exact ⟨not_ne_iff.mp h1, Nat.not_le.mp h2, h.symm⟩

theorem jwtVerify_ok_of {t : Token} {secret : String} {now : Nat}
    (h1 : t.secret = secret) (h2 : now < t.exp) :
    jwtVerify t secret now = .ok t.claims := by
  unfold jwtVerify
  rw [if_neg (by simp [h1]), if_neg (by simpa using Nat.not_le.mpr h2)]

theorem generate_ok_inv {env : Env} {db : DB} {now uid : Nat} {so : Bool}
    {pair : Token × Token} {db1 : DB}
    (h : generateAccessAndRefreshTokens env db now uid so = (.ok pair, db1)) :
    so = true ∧ ∃ u, findById db uid = some u ∧
      pair.2 = sign ⟨uid⟩ env.refreshTokenSecret env.refreshExpiry now ∧
      db1 = saveUser db uid { u with refreshToken := some pair.2 } := by
  unfold generateAccessAndRefreshTokens at h
  rcases hf : findById db uid with _ | u
  · simp only [hf] at h
    simp at h
  · simp only [hf] at h
    by_cases hs : so = true
    · simp only [hs, if_true, Prod.mk.injEq, Except.ok.injEq] at h
      refine ⟨hs, u, rfl, ?_, ?_⟩
      · rw [← h.1]
      · rw [← h.2, ← h.1]
    · simp [hs] at h

theorem refresh_ok_inv {env : Env} {db : DB} {now : Nat} {t : Token} {so : Bool}
    {resp : RefreshResponse} {db' : DB}
    (h : refreshAccessToken env db now (some t) so = (.ok resp, db')) :
    t.secret = env.refreshTokenSecret ∧ now < t.exp ∧ so = true ∧
    ∃ u, findById db t.claims.uid = some u ∧ u.refreshToken = some t ∧
      resp.refreshToken = sign ⟨t.claims.uid⟩ env.refreshTokenSecret env.refreshExpiry now ∧
      db' = saveUser db t.claims.uid { u with refreshToken := some resp.refreshToken } := by
  unfold refreshAccessToken at h
  rcases hv : jwtVerify t env.refreshTokenSecret now with e | d
  · simp only [hv] at h
    simp at h
  · obtain ⟨hsec, hexp, hd⟩ := jwtVerify_ok_inv hv
    subst hd
    simp only [hv] at h
    rcases hf : findById db t.claims.uid with _ | u
    · simp only [hf] at h
      simp at h
    · simp only [hf] at h
      by_cases hm : some t = u.refreshToken
      · rw [if_neg (not_not.mpr hm)] at h
        rcases hg : generateAccessAndRefreshTokens env db now t.claims.uid so
          with ⟨(e | pair), db1⟩
        · simp only [hg] at h
          simp at h
        · simp only [hg] at h
          obtain ⟨hso, u2, hf2, hp2, hdb⟩ := generate_ok_inv hg
          have huu : u = u2 := by
            rw [hf] at hf2
            exact Option.some.inj hf2
          simp only [Prod.mk.injEq, Except.ok.injEq] at h
          have hresp : resp.refreshToken = pair.2 := by rw [← h.1]
          refine ⟨hsec, hexp, hso, u, rfl, hm.symm, ?_, ?_⟩
          · rw [hresp, hp2]
          · rw [← h.2, hdb, ← huu, hresp]
      · rw [if_pos hm] at h
        simp at h

theorem login_ok_inv {env : Env} {db : DB} {now : Nat} {req : LoginRequest}
    {so : Bool} {resp : LoginResponse} {db' : DB}
    (h : loginUser env db now req so = (.ok resp, db')) :
    so = true ∧ ∃ uid u u2,
      findOneByEmailOrUsername db req.email req.username = some (uid, u) ∧
      findById db uid = some u2 ∧
      resp.refreshToken = sign ⟨uid⟩ env.refreshTokenSecret env.refreshExpiry now ∧
      db' = saveUser db uid { u2 with refreshToken := some resp.refreshToken } := by
  unfold loginUser at h
  by_cases hval : ((!truthy req.email && !truthy req.username) || !truthy req.password) = true
  · simp only [hval, if_true] at h
    simp at h
  · simp only [eq_false_of_ne_true hval, Bool.false_eq_true, if_false] at h
    rcases hf : findOneByEmailOrUsername db req.email req.username with _ | ⟨uid, u⟩
    · simp only [hf] at h
      simp at h
    · simp only [hf] at h
      by_cases hpw : isPasswordCorrect (req.password.getD "") u.password = true
      · simp only [hpw, Bool.not_true, Bool.false_eq_true, if_false] at h
        rcases hg : generateAccessAndRefreshTokens env db now uid so
          with ⟨(e | pair), db1⟩
        · simp only [hg] at h
          simp at h
        · simp only [hg] at h
          obtain ⟨hso, u2, hf2, hp2, hdb⟩ := generate_ok_inv hg
          simp only [Prod.mk.injEq, Except.ok.injEq] at h
          refine ⟨hso, uid, u, u2, rfl, hf2, ?_, ?_⟩
          · rw [← h.1]
            exact hp2
          · rw [← h.2, hdb, ← h.1]
      · simp only [eq_false_of_ne_true hpw, Bool.not_false, if_true] at h
        simp at h

theorem login_ok_user_shape {env : Env} {db : DB} {now : Nat} {req : LoginRequest}
    {so : Bool} {resp : LoginResponse} {db' : DB}
    (h : loginUser env db now req so = (.ok resp, db')) :
    resp.user = [] ∨
    ∃ u3 : UserDoc, resp.user = selectWithout u3.toFields ["password", "refreshToken"] := by
  unfold loginUser at h
  by_cases hval : ((!truthy req.email && !truthy req.username) || !truthy req.password) = true
  · simp only [hval, if_true] at h
    simp at h
  · simp only [eq_false_of_ne_true hval, Bool.false_eq_true, if_false] at h
    rcases hf : findOneByEmailOrUsername db req.email req.username with _ | ⟨uid, u⟩
    · simp only [hf] at h
      simp at h
    · simp only [hf] at h
      by_cases hpw : isPasswordCorrect (req.password.getD "") u.password = true
      · simp only [hpw, Bool.not_true, Bool.false_eq_true, if_false] at h
        rcases hg : generateAccessAndRefreshTokens env db now uid so
          with ⟨(e | pair), db1⟩
        · simp only [hg] at h
          simp at h
        · simp only [hg] at h
          simp only [Prod.mk.injEq, Except.ok.injEq] at h
          rcases hf2 : findById db1 uid with _ | u2
          · left
            rw [← h.1]
            simp only [hf2]
          · right
            refine ⟨u2, ?_⟩
            rw [← h.1]
            simp only [hf2]
      · simp only [eq_false_of_ne_true hpw, Bool.not_false, if_true] at h
        simp at h

theorem refresh_fails_of_mismatch {env : Env} {db : DB} {now : Nat} {t : Token}
    {so : Bool} {u : UserDoc}
    (hf : findById db t.claims.uid = some u) (hm : u.refreshToken ≠ some t) :
    isSuccess (refreshAccessToken env db now (some t) so).1 = false := by
  rcases hv : jwtVerify t env.refreshTokenSecret now with e | d
  · simp only [refreshAccessToken, hv]
    rfl
  · obtain ⟨hsec, hexp, hd⟩ := jwtVerify_ok_inv hv
    subst hd
    simp only [refreshAccessToken, hv, hf]
    rw [if_pos (fun hc => hm hc.symm)]
    rfl

theorem lookup_selectWithout {fields : List (String × FieldValue)}
    {excl : List String} {k : String} (h : excl.contains k = true) :
    (selectWithout fields excl).lookup k = none := by
  induction fields with
  | nil => rfl
  | cons p rest ih =>
    obtain ⟨k1, v1⟩ := p
    by_cases hp : excl.contains k1 = true
    · simp only [selectWithout, List.filter_cons, hp, Bool.not_true,
        Bool.false_eq_true, if_false] at ih ⊢
      exact ih
    · have hk : ¬ k = k1 := fun hc => hp (hc ▸ h)
      have hkb : (k == k1) = false := by simp [hk]
      simp only [selectWithout, List.filter_cons, eq_false_of_ne_true hp,
        Bool.not_false, if_true, List.lookup, hkb] at ih ⊢
      exact ih

theorem refreshSucceeds_congr {env : Env} {dbA dbB : DB} {now : Nat} {t : Token}
    (hag : Option.map UserDoc.refreshToken (findById dbA t.claims.uid) =
           Option.map UserDoc.refreshToken (findById dbB t.claims.uid)) :
    refreshSucceeds env dbA now t = refreshSucceeds env dbB now t := by
  rcases hv : jwtVerify t env.refreshTokenSecret now with e | d
  · simp only [refreshSucceeds, refreshAccessToken, hv]
  · obtain ⟨hsec, hexp, hd⟩ := jwtVerify_ok_inv hv
    subst hd
    rcases hA : findById dbA t.claims.uid with _ | uA
    · rcases hB : findById dbB t.claims.uid with _ | uB
      · simp only [refreshSucceeds, refreshAccessToken, hv, hA, hB]
      · rw [hA, hB] at hag
        simp at hag
    · rcases hB : findById dbB t.claims.uid with _ | uB
      · rw [hA, hB] at hag
        simp at hag
      · rw [hA, hB] at hag
        simp only [Option.map_some'] at hag
        have hrt : uA.refreshToken = uB.refreshToken := Option.some.inj hag
        simp only [refreshSucceeds, refreshAccessToken, hv, hA, hB, hrt]
        by_cases hm : some t ≠ uB.refreshToken
        · rw [if_pos hm, if_pos hm]
        · rw [if_neg hm, if_neg hm]
          simp [generateAccessAndRefreshTokens, hA, hB, isSuccess]

/-- Claim C1, evaluated at the failing input: the logout of user 1 answers
200, yet the Session Store is unchanged and still holds tokC for user 1,
because the single key of the update document holds undefined and is stripped
before the write; the subsequent refresh presenting tokC, the token that was
valid before the logout, succeeds instead of failing as the claim requires. -/
theorem logout_noop_refresh_still_succeeds :
    (logoutUser dbC 1).1 = .ok () ∧
    (logoutUser dbC 1).2 = dbC ∧
    findById (logoutUser dbC 1).2 1 = some aliceC ∧
    isSuccess (refreshAccessToken envC (logoutUser dbC 1).2 50 (some tokC) true).1 = true :=
  ⟨by decide, by decide, by decide, by decide⟩

/-- Claim C2: a successful refresh overwrites the Session Store with the newly
issued refresh token, so presenting the same, now-superseded token a second
time fails; superseded means the rotation issued a token distinct from the
presented one. -/
theorem refresh_rejects_replay (env : Env) (db : DB) (now now2 : Nat)
    (t : Token) (so2 : Bool) (resp : RefreshResponse) (db' : DB)
    (h : refreshAccessToken env db now (some t) true = (.ok resp, db'))
    (hsup : resp.refreshToken ≠ t) :
    isSuccess (refreshAccessToken env db' now2 (some t) so2).1 = false := by
  obtain ⟨hsec, hexp, -, u, hf, hst, hrt, hdb⟩ := refresh_ok_inv h
  have hf2 : findById db' t.claims.uid =
      some { u with refreshToken := some resp.refreshToken } := by
    rw [hdb]
    exact findById_saveUser_self _ hf
  refine refresh_fails_of_mismatch hf2 ?_
  have hproj : ({ u with refreshToken := some resp.refreshToken } : UserDoc).refreshToken
      = some resp.refreshToken := rfl
  rw [hproj]
  exact fun hc => hsup (Option.some.inj hc)

/-- Witness for claim C2: after the successful refresh of dbC at time 50,
presenting tokC again at time 60 fails. -/
theorem refresh_rejects_replay_witness :
    isSuccess (refreshAccessToken envC dbC2 60 (some tokC) true).1 = false :=
  refresh_rejects_replay envC dbC 50 60 tokC true respC dbC2 (by decide) (by decide)

/-- Claim C3: after a successful login, a refresh presenting a refresh token
issued by a prior login of the same user fails, even when that token is
correctly signed and not yet expired: the login overwrote the Session Store. -/
theorem login_overwrite_blocks_prior_token (env : Env) (db : DB) (now now2 : Nat)
    (req : LoginRequest) (resp : LoginResponse) (db' : DB) (uid : Nat)
    (u : UserDoc) (t : Token) (so2 : Bool)
    (h : loginUser env db now req true = (.ok resp, db'))
    (hfound : findOneByEmailOrUsername db req.email req.username = some (uid, u))
    (hclaims : t.claims.uid = uid)
    (hsig : t.secret = env.refreshTokenSecret)
    (hunexp : now2 < t.exp)
    (hprior : t ≠ resp.refreshToken) :
    isSuccess (refreshAccessToken env db' now2 (some t) so2).1 = false := by
  obtain ⟨-, uid2, u2, u3, hf2, hfid, hrt, hdb⟩ := login_ok_inv h
  rw [hfound] at hf2
  have hpair := Option.some.inj hf2
  have huid : uid = uid2 := congrArg Prod.fst hpair
  have hf3 : findById db' t.claims.uid =
      some { u3 with refreshToken := some resp.refreshToken } := by
    rw [hclaims, huid, hdb]
    exact findById_saveUser_self _ hfid
  refine refresh_fails_of_mismatch hf3 ?_
  have hproj : ({ u3 with refreshToken := some resp.refreshToken } : UserDoc).refreshToken
      = some resp.refreshToken := rfl
  rw [hproj]
  exact fun hc => hprior (Option.some.inj hc).symm

/-- Witness for claim C3: after the login of user 1 at time 50, the refresh
token tokC of the earlier session is rejected at time 70 though unexpired. -/
theorem login_overwrite_blocks_prior_token_witness :
    isSuccess (refreshAccessToken envC dbC2 70 (some tokC) true).1 = false :=
  login_overwrite_blocks_prior_token envC dbC 50 70 reqC respLC dbC2 1 aliceC tokC true
    (by decide) (by decide) (by decide) (by decide) (by decide) (by decide)

/-- Claim C4: a successful login followed by a refresh presenting the returned
refresh token succeeds and returns a refresh token different from the one it
was given: signing embeds the expiry-timestamp claim, so the two calls, made
at different times, yield different tokens. -/
theorem login_then_refresh_rotates (env : Env) (db : DB) (now now2 : Nat)
    (req : LoginRequest) (resp : LoginResponse) (db' : DB)
    (h : loginUser env db now req true = (.ok resp, db'))
    (hfresh : now2 < now + env.refreshExpiry)
    (hne : now ≠ now2) :
    ∃ resp2 db2,
      refreshAccessToken env db' now2 (some resp.refreshToken) true = (.ok resp2, db2) ∧
      resp2.refreshToken ≠ resp.refreshToken := by
  obtain ⟨-, uid, u, u2, hfo, hfid, hrt, hdb⟩ := login_ok_inv h
  have hsec : resp.refreshToken.secret = env.refreshTokenSecret := by
    rw [hrt]
    rfl
  have hexp2 : now2 < resp.refreshToken.exp := by
    rw [hrt]
    exact hfresh
  have hv := jwtVerify_ok_of hsec hexp2
  have hcu : resp.refreshToken.claims = (⟨uid⟩ : Claims) := by
    rw [hrt]
    rfl
  have hfid2 : findById db' uid = some { u2 with refreshToken := some resp.refreshToken } := by
    rw [hdb]
    exact findById_saveUser_self _ hfid
  refine ⟨⟨sign ⟨uid⟩ env.accessTokenSecret env.accessExpiry now2,
           sign ⟨uid⟩ env.refreshTokenSecret env.refreshExpiry now2⟩,
          saveUser db' uid { { u2 with refreshToken := some resp.refreshToken } with
            refreshToken := some (sign ⟨uid⟩ env.refreshTokenSecret env.refreshExpiry now2) },
          ?_, ?_⟩
  · simp only [refreshAccessToken, hv, hcu, hfid2, generateAccessAndRefreshTokens]
    rw [if_neg (by simp)]
    rfl
  · intro hc
    have h1 := congrArg Token.iat hc
    rw [hrt] at h1
    simp only [sign] at h1
    exact hne h1.symm

/-- Witness for claim C4: logging in against dbC at time 50 and refreshing at
time 60 with the returned refresh token succeeds and rotates the token. -/
theorem login_then_refresh_rotates_witness :
    ∃ resp2 db2,
      refreshAccessToken envC dbC2 60 (some respLC.refreshToken) true = (.ok resp2, db2) ∧
      resp2.refreshToken ≠ respLC.refreshToken :=
  login_then_refresh_rotates envC dbC 50 60 reqC respLC dbC2
    (by decide) (by decide) (by decide)

/-- Claim C5: a refresh presenting an expired, correctly signed token fails
with a 401 carrying the expiry message of the verification primitive, which
differs from the message of the invalid-signature failure and from the
messages of the stored-token-mismatch and user-not-found failures, so the
failure kinds are internally distinguishable. -/
theorem refresh_expired_distinguishable (env : Env) (db : DB) (now : Nat)
    (t : Token) (so : Bool)
    (hsig : t.secret = env.refreshTokenSecret) (hexp : t.exp ≤ now) :
    refreshAccessToken env db now (some t) so = (.error ⟨401, "jwt expired"⟩, db) ∧
    (∀ t2 : Token, t2.secret ≠ env.refreshTokenSecret →
      refreshAccessToken env db now (some t2) so = (.error ⟨401, "invalid signature"⟩, db)) ∧
    "jwt expired" ≠ "invalid signature" ∧
    "jwt expired" ≠ "Expired or invalid refresh token" ∧
    "jwt expired" ≠ "Invalid refresh token" := by
  refine ⟨?_, ?_, by decide, by decide, by decide⟩
  · have hv : jwtVerify t env.refreshTokenSecret now = .error .tokenExpired := by
      unfold jwtVerify
      rw [if_neg (fun hc => hc hsig), if_pos hexp]
    simp only [refreshAccessToken, hv]
    rfl
  · intro t2 h2
    have hv : jwtVerify t2 env.refreshTokenSecret now = .error .tokenInvalid := by
      unfold jwtVerify
      rw [if_pos h2]
    simp only [refreshAccessToken, hv]
    rfl

/-- Witness for claim C5: refreshing with tokC at time 2000, past its expiry
1010, yields the 401 with the expiry message. -/
theorem refresh_expired_distinguishable_witness :
    refreshAccessToken envC dbC 2000 (some tokC) true =
      (.error ⟨401, "jwt expired"⟩, dbC) :=
  (refresh_expired_distinguishable envC dbC 2000 tokC true (by decide) (by decide)).1

/-- Claim C6 counterexample: at this concrete input every check of the refresh
path passes and only the persistent write of the new refresh token fails, yet
the call surfaces status code 401 with the token-generation message: the same
401 class the refresh path uses for authentication failures, as the second
conjunct shows for an invalid signature, not a distinct server-side class. -/
theorem storage_error_not_distinct_counterexample :
    (refreshAccessToken envC dbC 50 (some tokC) false).1 =
      .error ⟨401, "Something went wrong while generating tokens"⟩ ∧
    (refreshAccessToken envC dbC 50 (some ⟨⟨1⟩, "wrong-secret", 10, 1010⟩) true).1 =
      .error ⟨401, "invalid signature"⟩ :=
  ⟨by decide, by decide⟩

/-- Claim C6 amended: a failed persistent write during login surfaces as the
server-side 500 error, distinct from the 400, 404 and 401 failures of the
login path; but during refresh the catch-all converts the same failure into a
401, the status code of the authentication failures, distinguishable from
them only by its message. -/
theorem storage_error_surfaces (env : Env) (db : DB) (now : Nat)
    (req : LoginRequest) (uid : Nat) (u : UserDoc) (t : Token) (u2 : UserDoc)
    (hval : ((!truthy req.email && !truthy req.username) || !truthy req.password) = false)
    (hfound : findOneByEmailOrUsername db req.email req.username = some (uid, u))
    (hpw : isPasswordCorrect (req.password.getD "") u.password = true)
    (hsig : t.secret = env.refreshTokenSecret) (hexp : now < t.exp)
    (hfid : findById db t.claims.uid = some u2)
    (hstored : u2.refreshToken = some t) :
    loginUser env db now req false =
      (.error ⟨500, "Something went wrong while generating tokens"⟩, db) ∧
    refreshAccessToken env db now (some t) false =
      (.error ⟨401, "Something went wrong while generating tokens"⟩, db) := by
  constructor
  · simp only [loginUser, hval, Bool.false_eq_true, if_false, hfound, hpw,
      Bool.not_true, generateAccessAndRefreshTokens]
    rcases hfu : findById db uid with _ | u3 <;> simp [hfu]
  · have hv := jwtVerify_ok_of hsig hexp
    simp only [refreshAccessToken, hv, hfid, generateAccessAndRefreshTokens]
    rw [if_neg (fun hc : some t ≠ u2.refreshToken => hc hstored.symm)]
    simp

/-- Witness for the amended claim C6 at the sample store: the failed write
yields the 500 on the login path and the 401 on the refresh path. -/
theorem storage_error_surfaces_witness :
    loginUser envC dbC 50 reqC false =
      (.error ⟨500, "Something went wrong while generating tokens"⟩, dbC) ∧
    refreshAccessToken envC dbC 50 (some tokC) false =
      (.error ⟨401, "Something went wrong while generating tokens"⟩, dbC) :=
  storage_error_surfaces envC dbC 50 reqC 1 aliceC tokC aliceC
    (by decide) (by decide) (by decide) (by decide) (by decide) (by decide) (by decide)

/-- Claim C7: a login naming an existing user with a wrong password fails with
the 401 invalid-credentials error, no tokens are issued, and the record store
is returned unchanged: the throw happens before any token generation or
write. -/
theorem login_wrong_password_atomic (env : Env) (db : DB) (now : Nat)
    (req : LoginRequest) (uid : Nat) (u : UserDoc) (so : Bool)
    (hval : ((!truthy req.email && !truthy req.username) || !truthy req.password) = false)
    (hfound : findOneByEmailOrUsername db req.email req.username = some (uid, u))
    (hpw : isPasswordCorrect (req.password.getD "") u.password = false) :
    loginUser env db now req so = (.error ⟨401, "Invalid credentials"⟩, db) := by
  simp only [loginUser, hval, Bool.false_eq_true, if_false, hfound, hpw,
    Bool.not_false, if_true]

/-- Witness for claim C7: a login for alice with a wrong password returns the
401 and leaves the sample store unchanged. -/
theorem login_wrong_password_atomic_witness :
    loginUser envC dbC 50 ⟨none, some "alice", some "wrong"⟩ true =
      (.error ⟨401, "Invalid credentials"⟩, dbC) :=
  login_wrong_password_atomic envC dbC 50 ⟨none, some "alice", some "wrong"⟩ 1 aliceC true
    (by decide) (by decide) (by decide)

/-- Claim C8: a successful password change rewrites only the password field of
the caller: the refresh-token field and every other record are unchanged, and
the success of any refresh presenting a token is the same before and after
the change, so existing sessions are not revoked. -/
theorem change_password_preserves_sessions (env : Env) (db : DB)
    (callerId now : Nat) (u : UserDoc) (oldpw newpw : String) (t : Token)
    (hfind : findById db callerId = some u)
    (hpw : isPasswordCorrect oldpw u.password = true) :
    (changeCurrentPassword db callerId oldpw newpw).1 = .ok () ∧
    findById (changeCurrentPassword db callerId oldpw newpw).2 callerId =
      some { u with password := hashPassword newpw } ∧
    (∀ j, j ≠ callerId →
      findById (changeCurrentPassword db callerId oldpw newpw).2 j = findById db j) ∧
    refreshSucceeds env (changeCurrentPassword db callerId oldpw newpw).2 now t =
      refreshSucceeds env db now t := by
  have hdb2 : (changeCurrentPassword db callerId oldpw newpw).2 =
      saveUser db callerId { u with password := hashPassword newpw } := by
    simp only [changeCurrentPassword, hfind, hpw, Bool.not_true,
      Bool.false_eq_true, if_false]
  have h1 : (changeCurrentPassword db callerId oldpw newpw).1 = .ok () := by
    simp only [changeCurrentPassword, hfind, hpw, Bool.not_true,
      Bool.false_eq_true, if_false]
  have h2 : findById (changeCurrentPassword db callerId oldpw newpw).2 callerId =
      some { u with password := hashPassword newpw } := by
    rw [hdb2]
    exact findById_saveUser_self _ hfind
  have h3 : ∀ j, j ≠ callerId →
      findById (changeCurrentPassword db callerId oldpw newpw).2 j = findById db j := by
    intro j hj
    rw [hdb2]
    exact findById_saveUser_other _ hj
  refine ⟨h1, h2, h3, ?_⟩
  apply refreshSucceeds_congr
  by_cases hc : t.claims.uid = callerId
  · rw [hc, h2, hfind]
    rfl
  · rw [h3 _ hc]

/-- Witness for claim C8: changing the password of user 1 keeps tokC stored
and the refresh presenting tokC succeeds exactly as before the change. -/
theorem change_password_preserves_sessions_witness :
    (changeCurrentPassword dbC 1 "pw" "pw2").1 = .ok () ∧
    findById (changeCurrentPassword dbC 1 "pw" "pw2").2 1 =
      some { aliceC with password := hashPassword "pw2" } ∧
    (∀ j, j ≠ 1 →
      findById (changeCurrentPassword dbC 1 "pw" "pw2").2 j = findById dbC j) ∧
    refreshSucceeds envC (changeCurrentPassword dbC 1 "pw" "pw2").2 50 tokC =
      refreshSucceeds envC dbC 50 tokC :=
  change_password_preserves_sessions envC dbC 1 50 aliceC "pw" "pw2" tokC
    (by decide) (by decide)

/-- Claim C9: the user projection returned by a successful login contains
neither the password field nor the refresh-token field: it is built with the
select projection that excludes both. -/
theorem login_response_sanitized (env : Env) (db : DB) (now : Nat)
    (req : LoginRequest) (so : Bool) (resp : LoginResponse) (db' : DB)
    (h : loginUser env db now req so = (.ok resp, db')) :
    resp.user.lookup "password" = none ∧ resp.user.lookup "refreshToken" = none := by
  rcases login_ok_user_shape h with hu | ⟨u3, hu⟩
  · rw [hu]
    exact ⟨rfl, rfl⟩
  · rw [hu]
    exact ⟨lookup_selectWithout (by decide), lookup_selectWithout (by decide)⟩

/-- Witness for claim C9: the projection returned by the sample login holds
no password and no refresh-token field. -/
theorem login_response_sanitized_witness :
    respLC.user.lookup "password" = none ∧ respLC.user.lookup "refreshToken" = none :=
  login_response_sanitized envC dbC 50 reqC true respLC dbC2 (by decide)

/-- Claim C10: a registration request in which one of the four body fields is
entirely absent, while every present field trims to a non-empty string, is not
rejected by the up-front required-fields validation: the optional-chained trim
of an absent field yields undefined, which is not the empty string, so the
call proceeds to the duplicate-user lookup and create continuation. -/
theorem register_absent_field_passes_validation (db : DB) (nextId : Nat)
    (req : RegisterRequest) (uploadOk : Bool)
    (habsent : req.fullName = none ∨ req.email = none ∨ req.username = none ∨
      req.password = none)
    (h1 : ∀ s, req.fullName = some s → jsTrim s ≠ "")
    (h2 : ∀ s, req.email = some s → jsTrim s ≠ "")
    (h3 : ∀ s, req.username = some s → jsTrim s ≠ "")
    (h4 : ∀ s, req.password = some s → jsTrim s ≠ "") :
    someFieldEmpty req = false ∧
    registerUser db nextId req uploadOk = registerAfterValidation db nextId req uploadOk := by
  have e1 : (req.fullName.map jsTrim == some "") = false := by
    rcases hf : req.fullName with _ | s
    · rfl
    · simp [h1 s hf]
  have e2 : (req.email.map jsTrim == some "") = false := by
    rcases hf : req.email with _ | s
    · rfl
    · simp [h2 s hf]
  have e3 : (req.username.map jsTrim == some "") = false := by
    rcases hf : req.username with _ | s
    · rfl
    · simp [h3 s hf]
  have e4 : (req.password.map jsTrim == some "") = false := by
    rcases hf : req.password with _ | s
    · rfl
    · simp [h4 s hf]
  have hse : someFieldEmpty req = false := by
    simp only [someFieldEmpty, List.any_cons, List.any_nil, e1, e2, e3, e4,
      Bool.or_self, Bool.or_false]
  refine ⟨hse, ?_⟩
  simp only [registerUser, hse, Bool.false_eq_true, if_false]

/-- Witness for claim C10: the request with an absent fullName passes the
required-fields validation and reaches the post-validation continuation. -/
theorem register_absent_field_passes_validation_witness :
    someFieldEmpty reqC10 = false ∧
    registerUser dbC 2 reqC10 true = registerAfterValidation dbC 2 reqC10 true :=
  register_absent_field_passes_validation dbC 2 reqC10 true (Or.inl (by decide))
    (fun s hs => by cases hs)
    (fun s hs => by rw [← Option.some.inj hs]; decide)
    (fun s hs => by rw [← Option.some.inj hs]; decide)
    (fun s hs => by rw [← Option.some.inj hs]; decide)
